import Mathlib

/-!
Verification of the core logic of `cost.py`: a credential store (signup /
login against a user table persisted in object storage) and a price query
engine (substring + price-range filter with a keyed sort).

Modelling decisions, per function of the source:

* `hash_password` calls the external SHA-256 hexdigest primitive; every
  definition is parameterized by that primitive `sha256hex : String → String`
  (its code is not part of the repository).
* Python dicts keyed by username are modelled as association lists with
  insertion-order semantics (`dictLookup`, `dictInsert`); `user_data[k] = v`
  on an absent key appends, preserving iteration order.
* Object storage (`s3_client`) is external: the content of `users.json` is a
  field `s3_users : Option UserTable` of the module state (`none` = the
  object is absent or unreadable), and each network call takes a Boolean
  (`loadOk` / `saveOk`) saying whether the call raised, since success of a
  network call is decided by the environment.  The module-level global
  `user_data` of line 35 is the second field of the module state.
* `load_price_data` returns the loaded table on success and, per its
  `except` clause, an empty frame on any failure; its argument
  `Option PriceTable` plays the same role as `s3_users`.
* pandas `Series.str.contains(pat, case=False, na=False)` delegates to
  Python `re.search` with `IGNORECASE`; `str_contains` below models that
  search for patterns built from literal characters and the `.`
  metacharacter, the only regex fragment the theorems exercise; `na=False`
  makes a missing product name non-matching.
* `sort_values` delegates to a library sorting routine whose algorithm is
  not part of the repository; `search_price` is therefore parameterized by
  an abstract `SortAlg`, and theorems that need anything of it assume only
  that it permutes its input.
-/

namespace Cost

/-- A stored user record: `{"password": <hash digest>, "created_at": <timestamp>}`
(lines 142–145 of `cost.py`). -/
structure UserRecord where
  password : String
  created_at : String
deriving DecidableEq, Repr

/-- The user table persisted as `users.json`: a JSON object keyed by
username, modelled as an association list in insertion order. -/
abbrev UserTable := List (String × UserRecord)

/-- Python `d[k]` lookup on the username-keyed dict. -/
def dictLookup (k : String) : UserTable → Option UserRecord
  | [] => none
  | (k', v) :: rest => if k' = k then some v else dictLookup k rest

/-- Python `k in d` membership test (case-sensitive exact key match). -/
def dictContains (k : String) (t : UserTable) : Bool :=
  (dictLookup k t).isSome

/-- Python `d[k] = v`: replace in place when the key exists, else append. -/
def dictInsert (k : String) (v : UserRecord) : UserTable → UserTable
  | [] => [(k, v)]
  | (k', v') :: rest =>
      if k' = k then (k, v) :: rest else (k', v') :: dictInsert k v rest

/-- `hash_password` (lines 38–39): applies the external SHA-256 hexdigest
primitive to the password. -/
def hash_password (sha256hex : String → String) (password : String) : String :=
  sha256hex password

/-- Process-wide state of the module: the content of `users.json` in the
bucket (`none` = object absent/unreadable) and the module-level global
`user_data` of line 35. -/
structure ModuleState where
  s3_users : Option UserTable
  user_data : UserTable
deriving DecidableEq, Repr

/-- `load_user_data` (lines 42–51): fetch and parse `users.json`; any
exception (missing object, network failure `loadOk = false`, parse error)
is caught and an empty table returned. -/
def load_user_data (s : ModuleState) (loadOk : Bool) : UserTable :=
  match s.s3_users, loadOk with
  | some t, true => t
  | _, _ => []

/-- `save_user_data` (lines 66–77): `put_object` with body
`json.dumps(user_data)` — the module-level GLOBAL, not the `user_Dict`
parameter.  Returns whether the save succeeded, plus the new module state. -/
def save_user_data (user_Dict : UserTable) (s : ModuleState) (saveOk : Bool) :
    Bool × ModuleState :=
  if saveOk then (true, { s with s3_users := some s.user_data })
  else (false, s)

/-- `validate_login` (lines 80–91).  The second component counts how many
storage loads were performed. -/
def validate_login (sha256hex : String → String) (s : ModuleState)
    (loadOk : Bool) (username password : String) : Bool × Nat :=
  if username = "" ∨ password = "" then (false, 0)
  else
    let user_data := load_user_data s loadOk
    let hashed_password := hash_password sha256hex password
    (match dictLookup username user_data with
     | some r => decide (r.password = hashed_password)
     | none => false, 1)

/-- The distinct validation/storage failures surfaced by `signup_page`
(lines 124–140, 150–151), one per distinct error message. -/
inductive SignupError
  | usernameLength
  | passwordLength
  | passwordMismatch
  | usernameTaken
  | saveFailed
deriving DecidableEq, Repr

/-- Result of one submission of the signup form: the error shown (`none` =
success message), the module state afterwards, and how many times
`save_user_data` was invoked. -/
structure SignupOutcome where
  result : Option SignupError
  state : ModuleState
  saves : Nat
deriving DecidableEq, Repr

/-- `signup_page` submission handler (lines 123–151): length checks,
confirmation check, uniqueness check against a fresh load, then insert and
save.  `now` is the `datetime.datetime.now()` timestamp string. -/
def signup_page (sha256hex : String → String) (s : ModuleState)
    (loadOk saveOk : Bool) (new_username new_password confirm_password now : String) :
    SignupOutcome :=
  if new_username.length < 4 ∨ 20 < new_username.length then
    ⟨some .usernameLength, s, 0⟩
  else if new_password.length < 8 then
    ⟨some .passwordLength, s, 0⟩
  else if new_password ≠ confirm_password then
    ⟨some .passwordMismatch, s, 0⟩
  else
    let user_data := load_user_data s loadOk
    if dictContains new_username user_data then
      ⟨some .usernameTaken, s, 0⟩
    else
      let user_data := dictInsert new_username
        ⟨hash_password sha256hex new_password, now⟩ user_data
      let r := save_user_data user_data s saveOk
      if r.1 then ⟨none, r.2, 1⟩ else ⟨some .saveFailed, r.2, 1⟩

/-- C6: signup rejects usernames of length 3 or 21 with the username-length
error, accepts lengths 4 and 20 past that check, rejects passwords shorter
than 8 characters with the password-length error, rejects a differing
confirmation with the mismatch error, and the three errors are pairwise
distinct. -/
theorem signup_validation_cases (sha256hex : String → String) (s : ModuleState)
    (loadOk saveOk : Bool) (u p c now : String) :
    ((u.length = 3 ∨ u.length = 21) →
      (signup_page sha256hex s loadOk saveOk u p c now).result = some .usernameLength) ∧
    ((u.length = 4 ∨ u.length = 20) →
      (signup_page sha256hex s loadOk saveOk u p c now).result ≠ some .usernameLength) ∧
    (4 ≤ u.length → u.length ≤ 20 → p.length < 8 →
      (signup_page sha256hex s loadOk saveOk u p c now).result = some .passwordLength) ∧
    (4 ≤ u.length → u.length ≤ 20 → 8 ≤ p.length → p ≠ c →
      (signup_page sha256hex s loadOk saveOk u p c now).result = some .passwordMismatch) ∧
    (SignupError.usernameLength ≠ SignupError.passwordLength ∧
     SignupError.usernameLength ≠ SignupError.passwordMismatch ∧
     SignupError.passwordLength ≠ SignupError.passwordMismatch) := by
  refine ⟨?_, ?_, ?_, ?_, by decide⟩
  · intro h
    have hlen : u.length < 4 ∨ 20 < u.length := by omega
    simp [signup_page, if_pos hlen]
  · intro h
    have hlen : ¬ (u.length < 4 ∨ 20 < u.length) := by omega
    simp only [signup_page, if_neg hlen]
    split
    · simp
    · split
      · simp
      · split
        · simp
        · split <;> simp
  · intro h1 h2 h3
    have hlen : ¬ (u.length < 4 ∨ 20 < u.length) := by omega
    simp [signup_page, if_neg hlen, if_pos h3]
  · intro h1 h2 h3 h4
    have hlen : ¬ (u.length < 4 ∨ 20 < u.length) := by omega
    have hp : ¬ p.length < 8 := by omega
    simp [signup_page, if_neg hlen, if_neg hp, h4]

/-- Witness for C6 at concrete inputs: length 3 and length 21 usernames are
rejected, length 4 and 20 accepted past the username check, a 7-character
password rejected, and a differing confirmation rejected. -/
theorem signup_validation_cases_witness :
    (signup_page (fun x => x) ⟨some [], []⟩ true true "abc" "p" "p" "t").result
        = some .usernameLength ∧
    (signup_page (fun x => x) ⟨some [], []⟩ true true "abcdefghijklmnopqrstu" "p" "p" "t").result
        = some .usernameLength ∧
    (signup_page (fun x => x) ⟨some [], []⟩ true true "abcd" "p" "p" "t").result
        ≠ some .usernameLength ∧
    (signup_page (fun x => x) ⟨some [], []⟩ true true "abcdefghijklmnopqrst" "p" "p" "t").result
        ≠ some .usernameLength ∧
    (signup_page (fun x => x) ⟨some [], []⟩ true true "abcd" "1234567" "1234567" "t").result
        = some .passwordLength ∧
    (signup_page (fun x => x) ⟨some [], []⟩ true true "abcd" "12345678" "12345679" "t").result
        = some .passwordMismatch :=
  ⟨(signup_validation_cases _ _ _ _ _ _ _ _).1 (by decide),
   (signup_validation_cases _ _ _ _ _ _ _ _).1 (by decide),
   (signup_validation_cases _ _ _ _ _ _ _ _).2.1 (by decide),
   (signup_validation_cases _ _ _ _ _ _ _ _).2.1 (by decide),
   (signup_validation_cases _ _ _ _ _ _ _ _).2.2.1 (by decide) (by decide) (by decide),
   (signup_validation_cases _ _ _ _ _ _ _ _).2.2.2.1 (by decide) (by decide) (by decide)
     (by decide)⟩

/-- C7: when the requested username already exists in the freshly loaded
table, signup fails with the username-taken error, performs no save, and
returns the module state (hence the stored table) unchanged. -/
theorem signup_existing_username_unchanged (sha256hex : String → String)
    (s : ModuleState) (loadOk saveOk : Bool) (u p c now : String)
    (h1 : 4 ≤ u.length) (h2 : u.length ≤ 20) (h3 : 8 ≤ p.length) (h4 : p = c)
    (h5 : dictContains u (load_user_data s loadOk) = true) :
    signup_page sha256hex s loadOk saveOk u p c now = ⟨some .usernameTaken, s, 0⟩ := by
  subst h4
  have hlen : ¬ (u.length < 4 ∨ 20 < u.length) := by omega
  have hp : ¬ p.length < 8 := by omega
  simp [signup_page, if_neg hlen, if_neg hp, h5]

/-- Witness for C7: registering "alice" again, with "alice" already in the
stored table, is rejected as taken and the state is untouched. -/
theorem signup_existing_username_unchanged_witness :
    signup_page (fun x => x) ⟨some [("alice", ⟨"h", "t0"⟩)], []⟩ true true
        "alice" "password1" "password1" "t1"
      = ⟨some .usernameTaken, ⟨some [("alice", ⟨"h", "t0"⟩)], []⟩, 0⟩ :=
  signup_existing_username_unchanged (fun x => x) ⟨some [("alice", ⟨"h", "t0"⟩)], []⟩
    true true "alice" "password1" "password1" "t1"
    (by decide) (by decide) (by decide) rfl (by decide)

/-- C8: an empty username or an empty password makes `validate_login`
return `false` immediately, with zero storage loads performed. -/
theorem validate_login_empty_short_circuit (sha256hex : String → String)
    (s : ModuleState) (loadOk : Bool) (u p : String)
    (h : u = "" ∨ p = "") :
    validate_login sha256hex s loadOk u p = (false, 0) := by
  simp [validate_login, if_pos h]

/-- Witness for C8: the empty username short-circuits. -/
theorem validate_login_empty_short_circuit_witness :
    validate_login (fun x => x) ⟨some [("alice", ⟨"h", "t0"⟩)], []⟩ true "" "x"
      = (false, 0) :=
  validate_login_empty_short_circuit (fun x => x) ⟨some [("alice", ⟨"h", "t0"⟩)], []⟩
    true "" "x" (Or.inl rfl)

/-- C9: `load_user_data` fails soft — whenever the retrieval fails (the
object is absent, or the fetch/parse raised), it returns the empty table;
being a total Lean function it propagates no exception to its caller. -/
theorem load_user_data_fails_soft (s : ModuleState) (loadOk : Bool)
    (h : s.s3_users = none ∨ loadOk = false) :
    load_user_data s loadOk = [] := by
  rcases h with h | h
  · simp [load_user_data, h]
  · cases hs : s.s3_users <;> simp [load_user_data, h, hs]

/-- Witness for C9: a failed fetch over a populated bucket object still
yields the empty table. -/
theorem load_user_data_fails_soft_witness :
    load_user_data ⟨some [("alice", ⟨"h", "t0"⟩)], []⟩ false = [] :=
  load_user_data_fails_soft ⟨some [("alice", ⟨"h", "t0"⟩)], []⟩ false (Or.inr rfl)

/-- `save_user_data` never writes the module-level global, whatever the
argument and outcome. -/
theorem save_user_data_preserves_global (d : UserTable) (s : ModuleState)
    (saveOk : Bool) : (save_user_data d s saveOk).2.user_data = s.user_data := by
  unfold save_user_data
  split <;> rfl

/-- `signup_page` never writes the module-level global `user_data`
(every assignment to `user_data` in its body creates a Python local). -/
theorem signup_page_preserves_global (sha256hex : String → String)
    (s : ModuleState) (loadOk saveOk : Bool) (u p c now : String) :
    (signup_page sha256hex s loadOk saveOk u p c now).state.user_data = s.user_data := by
  simp only [signup_page]
  split
  · rfl
  · split
    · rfl
    · split
      · rfl
      · split
        · rfl
        · split <;> exact save_user_data_preserves_global _ _ _

/-- Module states the process can be in: the global `user_data` starts as
the empty dict (line 35) over an arbitrary bucket content, and evolves only
through the state-changing operations (`signup_page` submissions and bare
`save_user_data` calls; `load_user_data` and `validate_login` do not write
the state). -/
inductive Reachable (sha256hex : String → String) : ModuleState → Prop
  | init (s3 : Option UserTable) : Reachable sha256hex ⟨s3, []⟩
  | signup {s : ModuleState} (h : Reachable sha256hex s) (loadOk saveOk : Bool)
      (u p c now : String) :
      Reachable sha256hex (signup_page sha256hex s loadOk saveOk u p c now).state
  | save {s : ModuleState} (h : Reachable sha256hex s) (d : UserTable) (saveOk : Bool) :
      Reachable sha256hex (save_user_data d s saveOk).2

/-- In every reachable module state the global `user_data` is still the
empty dict it was initialized to. -/
theorem reachable_global_empty {sha256hex : String → String} {s : ModuleState}
    (h : Reachable sha256hex s) : s.user_data = [] := by
  induction h with
  | init s3 => rfl
  | signup h loadOk saveOk u p c now ih =>
      rw [signup_page_preserves_global]; exact ih
  | save h d saveOk ih =>
      rw [save_user_data_preserves_global]; exact ih

/-- C2: `save_user_data` ignores its `user_Dict` parameter — its result is
the same for every argument — and, the global `user_data` being empty in
every reachable state, a successful save persists the empty user table. -/
theorem save_user_data_ignores_argument (sha256hex : String → String)
    (s : ModuleState) (hr : Reachable sha256hex s) (user_Dict : UserTable)
    (saveOk : Bool) :
    (∀ d : UserTable, save_user_data user_Dict s saveOk = save_user_data d s saveOk) ∧
    (saveOk = true →
      (save_user_data user_Dict s saveOk).1 = true ∧
      (save_user_data user_Dict s saveOk).2.s3_users = some []) := by
  constructor
  · intro d
    rfl
  · intro hok
    subst hok
    refine ⟨rfl, ?_⟩
    simp [save_user_data, reachable_global_empty hr]

/-- Witness for C2: right after startup, saving a nonempty table argument
succeeds but persists the empty table. -/
theorem save_user_data_ignores_argument_witness :
    (∀ d : UserTable,
      save_user_data [("bob", ⟨"h", "t0"⟩)] ⟨some [], []⟩ true = save_user_data d ⟨some [], []⟩ true) ∧
    (true = true →
      (save_user_data [("bob", ⟨"h", "t0"⟩)] ⟨some [], []⟩ true).1 = true ∧
      (save_user_data [("bob", ⟨"h", "t0"⟩)] ⟨some [], []⟩ true).2.s3_users = some []) :=
  save_user_data_ignores_argument (fun x => x) ⟨some [], []⟩ (Reachable.init (some []))
    [("bob", ⟨"h", "t0"⟩)] true

/-- C1 (divergence from the spec): starting from an empty stored user
table, registering "alice" with password "password1" passes every check
and the save reports success, yet the table persisted to storage is still
empty — `save_user_data` serialized the global, not the updated local —
so a subsequent `validate_login` with the very same password returns
`false`, whatever the hash primitive. -/
theorem register_then_authenticate_fails (sha256hex : String → String) :
    (signup_page sha256hex ⟨some [], []⟩ true true "alice" "password1" "password1" "t0").result
        = none ∧
    (signup_page sha256hex ⟨some [], []⟩ true true "alice" "password1" "password1" "t0").state.s3_users
        = some [] ∧
    (validate_login sha256hex
        (signup_page sha256hex ⟨some [], []⟩ true true "alice" "password1" "password1" "t0").state
        true "alice" "password1").1 = false :=
  ⟨rfl, rfl, rfl⟩

/-- One row of the price table: `product_name` may be missing (pandas NaN),
`price` is numeric, `update_date` is only displayed, never inspected. -/
structure PriceRecord where
  product_name : Option String
  price : Int
  update_date : String
deriving DecidableEq, Repr

/-- The price table: an ordered sequence of rows. -/
abbrev PriceTable := List PriceRecord

/-- `load_price_data` (lines 54–63): the loaded rows on success, and per
its `except` clause an empty frame on any failure (`none`). -/
def load_price_data (r : Option PriceTable) : PriceTable :=
  match r with
  | some t => t
  | none => []

/-- One pattern character against one text character under `re.IGNORECASE`:
`.` matches anything but a newline, a literal matches up to case. -/
def reMatchChar (p c : Char) : Bool :=
  if p = '.' then decide (c ≠ '\n') else decide (p.toLower = c.toLower)

/-- Match a pattern (literals and `.`) against the start of the text. -/
def reMatchHere : List Char → List Char → Bool
  | [], _ => true
  | _ :: _, [] => false
  | p :: ps, c :: cs => reMatchChar p c && reMatchHere ps cs

/-- Python `re.search`: try the pattern at every start position. -/
def reSearchAux (ps : List Char) : List Char → Bool
  | [] => reMatchHere ps []
  | c :: cs => reMatchHere ps (c :: cs) || reSearchAux ps cs

/-- pandas `Series.str.contains(pat, case=False, na=False)` on one element:
a case-insensitive `re.search` of the pattern — the term is a REGEX, not a
literal.  Modelled for patterns built from literal characters and the `.`
metacharacter, the only regex fragment the theorems below exercise. -/
def str_contains (pat s : String) : Bool :=
  reSearchAux pat.toList s.toList

/-- The boolean mask of lines 181–185: name contains the term
(case-insensitively, NaN names excluded by `na=False`) and the price lies
in the inclusive range. -/
def price_mask (search_term : String) (min_price max_price : Int)
    (r : PriceRecord) : Bool :=
  (match r.product_name with
   | some name => str_contains search_term name
   | none => false)
  && decide (min_price ≤ r.price) && decide (r.price ≤ max_price)

/-- `price_df[mask]` of line 186: keep the rows passing the mask, in
order. -/
def filter_prices (search_term : String) (min_price max_price : Int)
    (t : PriceTable) : PriceTable :=
  t.filter (price_mask search_term min_price max_price)

/-- The three entries of the sort-order selectbox (lines 163–166). -/
inductive SortOrder
  | priceAsc
  | priceDesc
  | nameAsc
deriving DecidableEq, Repr

/-- The sorting routine `sort_values` delegates to; its algorithm (numpy
quicksort by default) is library code outside this repository, so it is
kept abstract. -/
abbrev SortAlg :=
  (PriceRecord → PriceRecord → Bool) → List PriceRecord → List PriceRecord

/-- The key comparison each branch of lines 189–194 sorts by; pandas puts
missing keys last. -/
def sortKeyLe : SortOrder → PriceRecord → PriceRecord → Bool
  | .priceAsc, a, b => decide (a.price ≤ b.price)
  | .priceDesc, a, b => decide (b.price ≤ a.price)
  | .nameAsc, a, b =>
      match a.product_name, b.product_name with
      | some x, some y => decide (x ≤ y)
      | some _, none => true
      | none, some _ => false
      | none, none => true

/-- The three user-visible outcomes of a search (lines 196–209): a result
table, the "no results" warning, or the "failed to load price data"
error. -/
inductive SearchOutcome
  | results (rows : PriceTable)
  | noResults
  | dataUnavailable
deriving DecidableEq, Repr

/-- The search-button handler of lines 176–209: load, guard on an empty
frame, filter, sort, then guard on an empty result. -/
def search_price (sortAlg : SortAlg) (loadResult : Option PriceTable)
    (search_term : String) (min_price max_price : Int) (sort_order : SortOrder) :
    SearchOutcome :=
  let price_df := load_price_data loadResult
  if price_df.isEmpty then .dataUnavailable
  else
    let filtered_df := filter_prices search_term min_price max_price price_df
    let sorted_df := sortAlg (sortKeyLe sort_order) filtered_df
    if sorted_df.isEmpty then .noResults else .results sorted_df

/-- One concrete sorting routine usable in place of the library sort when a
theorem needs to be evaluated. -/
def modelSort : SortAlg :=
  fun le l => List.insertionSort (fun a b => le a b = true) l

theorem modelSort_perm (le : PriceRecord → PriceRecord → Bool)
    (l : List PriceRecord) : List.Perm (modelSort le l) l :=
  List.perm_insertionSort _ l

/-- Stated from the spec's words, for comparison with the source-side
`str_contains`: "`product_name` contains `search_term` as a
case-insensitive substring". -/
def ciSubstringSpec (term s : String) : Prop :=
  List.IsInfix (term.toList.map Char.toLower) (s.toList.map Char.toLower)

instance (term s : String) : Decidable (ciSubstringSpec term s) :=
  List.decidableInfix _ _

/-- The characters Python `re` treats specially. -/
def isRegexMeta (c : Char) : Bool :=
  decide (c = '.') || decide (c = '*') || decide (c = '+') || decide (c = '?') ||
  decide (c = '^') || decide (c = '$') || decide (c = '|') || decide (c = '(') ||
  decide (c = ')') || decide (c = '[') || decide (c = ']') || decide (c = '\x7b') ||
  decide (c = '\x7d') || decide (c = '\\')

theorem isPrefix_nil_iff (l : List Char) : List.IsPrefix l ([] : List Char) ↔ l = [] := by
  constructor
  · rintro ⟨t, ht⟩
    cases l with
    | nil => rfl
    | cons a l => simp at ht
  · rintro rfl
    exact ⟨[], rfl⟩

theorem isPrefix_cons_iff (a b : Char) (l₁ l₂ : List Char) :
    List.IsPrefix (a :: l₁) (b :: l₂) ↔ a = b ∧ List.IsPrefix l₁ l₂ := by
  constructor
  · rintro ⟨t, ht⟩
    rw [List.cons_append] at ht
    injection ht with h1 h2
    exact ⟨h1, t, h2⟩
  · rintro ⟨rfl, t, ht⟩
    exact ⟨t, by rw [List.cons_append, ht]⟩

theorem isInfix_nil_iff (l : List Char) : List.IsInfix l ([] : List Char) ↔ l = [] := by
  constructor
  · rintro ⟨s, t, h⟩
    simp only [List.append_eq_nil] at h
    exact h.1.2
  · rintro rfl
    exact ⟨[], [], rfl⟩

theorem isInfix_cons_iff (l : List Char) (c : Char) (cs : List Char) :
    List.IsInfix l (c :: cs) ↔ List.IsPrefix l (c :: cs) ∨ List.IsInfix l cs := by
  constructor
  · rintro ⟨s, t, h⟩
    cases s with
    | nil => exact Or.inl ⟨t, by simpa using h⟩
    | cons a s =>
        rw [List.cons_append, List.cons_append] at h
        injection h with h1 h2
        exact Or.inr ⟨s, t, h2⟩
  · rintro (⟨t, ht⟩ | ⟨s, t, h⟩)
    · exact ⟨[], t, by simpa using ht⟩
    · exact ⟨c :: s, t, by rw [List.cons_append, List.cons_append, h]⟩

/-- For a metacharacter-free pattern, matching at the front is exactly
case-insensitive prefix equality. -/
theorem reMatchHere_eq_true_iff :
    ∀ (ps : List Char), ('.' ∈ ps → False) → ∀ (cs : List Char),
      (reMatchHere ps cs = true ↔
        List.IsPrefix (ps.map Char.toLower) (cs.map Char.toLower))
  | [], _, cs => by
      constructor
      · intro _
        exact ⟨cs.map Char.toLower, rfl⟩
      · intro _
        rfl
  | p :: ps, h, [] => by
      constructor
      · intro hm
        simp [reMatchHere] at hm
      · rintro ⟨t, ht⟩
        simp at ht
  | p :: ps, h, c :: cs => by
      have hp : p ≠ '.' := fun he => h (by rw [he]; exact List.mem_cons_self _ _)
      have hps : '.' ∈ ps → False := fun hm => h (List.mem_cons_of_mem _ hm)
      simp only [reMatchHere, reMatchChar, if_neg hp, Bool.and_eq_true,
        decide_eq_true_eq, List.map_cons]
      rw [isPrefix_cons_iff]
      exact and_congr Iff.rfl (reMatchHere_eq_true_iff ps hps cs)

/-- For a metacharacter-free pattern, `re.search` is exactly
case-insensitive substring containment. -/
theorem reSearchAux_eq_true_iff :
    ∀ (cs ps : List Char), ('.' ∈ ps → False) →
      (reSearchAux ps cs = true ↔
        List.IsInfix (ps.map Char.toLower) (cs.map Char.toLower))
  | [], ps, h => by
      simp only [reSearchAux, List.map_nil]
      rw [reMatchHere_eq_true_iff ps h [], isInfix_nil_iff]
      simp [isPrefix_nil_iff]
  | c :: cs, ps, h => by
      simp only [reSearchAux, Bool.or_eq_true]
      rw [List.map_cons, isInfix_cons_iff, ← List.map_cons]
      exact or_congr (reMatchHere_eq_true_iff ps h (c :: cs))
        (reSearchAux_eq_true_iff cs ps h)

/-- On metacharacter-free search terms the source-side regex containment
agrees with the spec-side case-insensitive substring containment. -/
theorem str_contains_eq_spec (term s : String)
    (h : ∀ x ∈ term.toList, isRegexMeta x = false) :
    str_contains term s = decide (ciSubstringSpec term s) := by
  have hdot : '.' ∈ term.toList → False := by
    intro hm
    have hx := h '.' hm
    simp [isRegexMeta] at hx
  have hiff := reSearchAux_eq_true_iff s.toList term.toList hdot
  simp only [str_contains]
  by_cases hc : ciSubstringSpec term s
  · rw [hiff.mpr hc, decide_eq_true hc]
  · have hfalse : reSearchAux term.toList s.toList = false := by
      cases hb : reSearchAux term.toList s.toList
      · rfl
      · exact absurd (hiff.mp hb) hc
    rw [hfalse, decide_eq_false hc]

/-- C4 counterexample: with min 0 and max 150, "Widget B" at price 50 IS
kept (50 lies in [0,150]), so the claimed singleton result is wrong; and
the term is matched as a regex, so the term "." keeps a row whose name has
no "." substring at all. -/
theorem filter_prices_claim_false :
    filter_prices "widget" 0 150
        [⟨some "Widget A", 100, "d1"⟩, ⟨some "Widget B", 50, "d2"⟩,
         ⟨some "gadget", 200, "d3"⟩]
      = [⟨some "Widget A", 100, "d1"⟩, ⟨some "Widget B", 50, "d2"⟩] ∧
    filter_prices "." 0 150 [⟨some "xyz", 100, "d1"⟩] = [⟨some "xyz", 100, "d1"⟩] ∧
    ¬ ciSubstringSpec "." "xyz" := by
  refine ⟨?_, ?_, ?_⟩ <;> decide

/-- C4 amended: for search terms free of regex metacharacters the filter
keeps exactly the rows whose name contains the term as a case-insensitive
substring and whose price lies in the inclusive range, missing names
excluded; and the spec's worked example holds once its lower bound is 100,
as its stated exclusions require. -/
theorem filter_prices_spec :
    (∀ (t : PriceTable) (term : String) (minP maxP : Int),
      (∀ x ∈ term.toList, isRegexMeta x = false) →
      filter_prices term minP maxP t =
        t.filter (fun r =>
          (match r.product_name with
           | some name => decide (ciSubstringSpec term name)
           | none => false)
          && decide (minP ≤ r.price) && decide (r.price ≤ maxP))) ∧
    filter_prices "widget" 100 150
        [⟨some "Widget A", 100, "d1"⟩, ⟨some "Widget B", 50, "d2"⟩,
         ⟨some "gadget", 200, "d3"⟩]
      = [⟨some "Widget A", 100, "d1"⟩] := by
  constructor
  · intro t term minP maxP h
    apply List.filter_congr
    intro r _
    cases hn : r.product_name with
    | none => simp [price_mask, hn]
    | some name => simp [price_mask, hn, str_contains_eq_spec term name h]
  · decide

/-- Witness for C4: the metacharacter-free term "widget" filters per the
substring specification. -/
theorem filter_prices_spec_witness :
    filter_prices "widget" 0 1000
        [⟨some "Widget A", 100, "d1"⟩, ⟨some "gadget", 200, "d3"⟩]
      = List.filter (fun r =>
          (match r.product_name with
           | some name => decide (ciSubstringSpec "widget" name)
           | none => false)
          && decide ((0 : Int) ≤ r.price) && decide (r.price ≤ (1000 : Int)))
        [⟨some "Widget A", 100, "d1"⟩, ⟨some "gadget", 200, "d3"⟩] :=
  filter_prices_spec.1 [⟨some "Widget A", 100, "d1"⟩, ⟨some "gadget", 200, "d3"⟩]
    "widget" 0 1000 (by decide)

/-- C5 counterexample: a successfully loaded but empty price table produces
the very same "data unavailable" outcome as a failed load — the two are not
distinguishable. -/
theorem search_price_empty_table_indistinguishable :
    search_price modelSort (some []) "widget" 0 150 .priceAsc
        = search_price modelSort none "widget" 0 150 .priceAsc ∧
    search_price modelSort (some []) "widget" 0 150 .priceAsc = .dataUnavailable :=
  ⟨rfl, rfl⟩

/-- C5 amended: when the load succeeds with a NONEMPTY table, an empty
filtered result gives the distinct no-results outcome, never the
data-unavailable signal a failed load gives; a successfully loaded empty
table, however, is conflated with a failed load. -/
theorem search_price_outcomes (sortAlg : SortAlg)
    (hsort : ∀ le l, List.Perm (sortAlg le l) l)
    (t : PriceTable) (ht : t ≠ [])
    (term : String) (minP maxP : Int) (ord : SortOrder) :
    search_price sortAlg (some t) term minP maxP ord ≠ .dataUnavailable ∧
    search_price sortAlg none term minP maxP ord = .dataUnavailable ∧
    (filter_prices term minP maxP t = [] →
      search_price sortAlg (some t) term minP maxP ord = .noResults) := by
  have hne : t.isEmpty = false := by
    cases t with
    | nil => exact absurd rfl ht
    | cons a l => rfl
  refine ⟨?_, rfl, ?_⟩
  · simp only [search_price, load_price_data, hne, Bool.false_eq_true, if_false]
    split <;> simp
  · intro hf
    have hs : sortAlg (sortKeyLe ord) (filter_prices term minP maxP t) = [] := by
      rw [hf]
      exact (hsort (sortKeyLe ord) []).eq_nil
    simp [search_price, load_price_data, hne, hs]

/-- Witness for C5: on a one-row table a non-matching query reports "no
results", while the failed load reports "data unavailable". -/
theorem search_price_outcomes_witness :
    search_price modelSort (some [⟨some "apple", 10, "d"⟩]) "zzz" 0 5 .priceAsc
        ≠ .dataUnavailable ∧
    search_price modelSort none "zzz" 0 5 .priceAsc = .dataUnavailable ∧
    (filter_prices "zzz" 0 5 [⟨some "apple", 10, "d"⟩] = [] →
      search_price modelSort (some [⟨some "apple", 10, "d"⟩]) "zzz" 0 5 .priceAsc
        = .noResults) :=
  search_price_outcomes modelSort modelSort_perm
    [⟨some "apple", 10, "d"⟩] (by decide) "zzz" 0 5 .priceAsc

/-- The session store `{logged_in, username}` kept by the hosting
framework (initialized in `main`, lines 226–229). -/
structure Session where
  logged_in : Bool
  username : Option String
deriving DecidableEq, Repr

/-- The session right after `main`'s initialization: anonymous. -/
def initSession : Session := ⟨false, none⟩

/-- `logout` (lines 212–215): clear the flag and the username. -/
def logout (_sess : Session) : Session := ⟨false, none⟩

/-- The user actions the sidebar dispatches (lines 232–249): a login form
submission, the logout button, a signup form submission, and a search. -/
inductive Event
  | loginSubmit (username password : String) (loadOk : Bool)
  | logoutClick
  | signupSubmit (u p c now : String) (loadOk saveOk : Bool)
  | searchClick (loadResult : Option PriceTable) (term : String)
      (minP maxP : Int) (ord : SortOrder)

/-- One user action against the session and the module state: a successful
login sets the flag (lines 103–105), a failed one leaves it (line 110),
logout clears it (lines 237–239), signup touches only the module state,
search touches neither. -/
def step (sha256hex : String → String) (sess : Session) (m : ModuleState) :
    Event → Session × ModuleState
  | .loginSubmit u p loadOk =>
      if (validate_login sha256hex m loadOk u p).1 then (⟨true, some u⟩, m)
      else (sess, m)
  | .logoutClick => (logout sess, m)
  | .signupSubmit u p c now loadOk saveOk =>
      (sess, (signup_page sha256hex m loadOk saveOk u p c now).state)
  | .searchClick _ _ _ _ _ => (sess, m)

/-- C10: the session starts anonymous; the only step that turns the flag on
is a login submission that `validate_login` accepts; the only step that
turns it off is the logout click; failed logins, signups and searches leave
it untouched. -/
theorem session_state_machine (sha256hex : String → String) (sess : Session)
    (m : ModuleState) (e : Event) :
    initSession.logged_in = false ∧
    ((step sha256hex sess m e).1.logged_in = true → sess.logged_in = false →
      ∃ u p loadOk, e = .loginSubmit u p loadOk ∧
        (validate_login sha256hex m loadOk u p).1 = true) ∧
    ((step sha256hex sess m e).1.logged_in = false → sess.logged_in = true →
      e = .logoutClick) ∧
    (∀ u p loadOk, (validate_login sha256hex m loadOk u p).1 = false →
      (step sha256hex sess m (.loginSubmit u p loadOk)).1 = sess) ∧
    (∀ u p c now loadOk saveOk,
      (step sha256hex sess m (.signupSubmit u p c now loadOk saveOk)).1 = sess) ∧
    (∀ lr term minP maxP ord,
      (step sha256hex sess m (.searchClick lr term minP maxP ord)).1 = sess) := by
  refine ⟨rfl, ?_, ?_, ?_, fun _ _ _ _ _ _ => rfl, fun _ _ _ _ _ => rfl⟩
  · intro h1 h2
    cases e with
    | loginSubmit u p lo =>
        by_cases hv : (validate_login sha256hex m lo u p).1 = true
        · exact ⟨u, p, lo, rfl, hv⟩
        · exfalso
          simp only [step, if_neg hv] at h1
          rw [h1] at h2
          exact absurd h2 (by decide)
    | logoutClick =>
        exfalso
        simp only [step, logout] at h1
        exact absurd h1 (by decide)
    | signupSubmit u p c now lo so =>
        exfalso
        simp only [step] at h1
        rw [h1] at h2
        exact absurd h2 (by decide)
    | searchClick lr term minP maxP ord =>
        exfalso
        simp only [step] at h1
        rw [h1] at h2
        exact absurd h2 (by decide)
  · intro h1 h2
    cases e with
    | loginSubmit u p lo =>
        exfalso
        by_cases hv : (validate_login sha256hex m lo u p).1 = true
        · simp only [step, if_pos hv] at h1
          exact absurd h1 (by decide)
        · simp only [step, if_neg hv] at h1
          rw [h1] at h2
          exact absurd h2 (by decide)
    | logoutClick => rfl
    | signupSubmit u p c now lo so =>
        exfalso
        simp only [step] at h1
        rw [h1] at h2
        exact absurd h2 (by decide)
    | searchClick lr term minP maxP ord =>
        exfalso
        simp only [step] at h1
        rw [h1] at h2
        exact absurd h2 (by decide)
  · intro u p lo hv
    simp [step, hv]

/-- Witness for C10: from the anonymous session, a login submission whose
credentials check out is the event the second conjunct reconstructs. -/
theorem session_state_machine_witness :
    ∃ u p loadOk, (Event.loginSubmit "alice" "pw" true) = Event.loginSubmit u p loadOk ∧
      (validate_login (fun _ => "d") ⟨some [("alice", ⟨"d", "t0"⟩)], []⟩ loadOk u p).1
        = true :=
  (session_state_machine (fun _ => "d") initSession ⟨some [("alice", ⟨"d", "t0"⟩)], []⟩
      (Event.loginSubmit "alice" "pw" true)).2.1 (by decide) (by decide)

end Cost
